import Mathlib

/-!
Shallow embedding of the jellyfin-rs client library (user management,
authentication and error mapping), translated from `src/lib.rs`,
`src/user.rs`, `src/utils.rs`, `src/err.rs` and
`src/serde/subtitle_mode_serde.rs`.

External crates (`reqwest`, `serde_json`, `url`, `md5`, `sha1`, `whoami`)
are modelled as explicit parameters/oracles: the HTTP transport as an
`HttpOutcome` value, `serde_json::from_str` as an optional pre-parsed
`Json` value, `url::Url::join` as a fallible join function, the digest
routines as string-valued functions, and `whoami::devicename()` as a
string argument.
-/

namespace Jellyfin

/-- Model of `serde_json::Value`. Objects keep their fields as an
association list in insertion order. -/
inductive Json where
  | null
  | bool (b : Bool)
  | num (n : Int)
  | str (s : String)
  | arr (elems : List Json)
  | obj (fields : List (String × Json))

/-- `Value::get(key)`: field lookup, defined only on objects. -/
def Json.getKey : Json → String → Option Json
  | .obj fields, k => fields.lookup k
  | _, _ => none

/-- `Value::as_str`. -/
def Json.as_str : Json → Option String
  | .str s => some s
  | _ => none

/-- `Value::as_array`. -/
def Json.as_array : Json → Option (List Json)
  | .arr elems => some elems
  | _ => none

/-- `Value::as_object`. -/
def Json.as_object : Json → Option (List (String × Json))
  | .obj fields => some fields
  | _ => none

/-- `JellyfinError` from `src/err.rs`. The snapshot's `err.rs` declares
`HttpRequestError` with `property1`/`property2` fields while `utils.rs`
constructs it with an `errors` map; the embedding carries both, and a
construction site that does not mention a field fills it with
`none`/`[]`. The payloads of `NetworkError` (a `reqwest::Error`) and
`UrlParseError` (a `url::ParseError`) are opaque external values and are
not modelled. -/
inductive JellyfinError where
  | NetworkError
  | UrlParseError
  | AuthNotFound
  | HttpRequestError
      (status : Nat)
      (type_ title detail «instance» : Option String)
      (property1 property2 : Option String)
      (errors : List (String × List String))
      (message : String)
deriving DecidableEq, Repr

/-- Whether an error is the structured HTTP error variant. -/
def JellyfinError.isHttpRequestError : JellyfinError → Bool
  | .HttpRequestError .. => true
  | _ => false

/-- The field-error map of a structured HTTP error (empty for the other
variants). -/
def JellyfinError.errorMap : JellyfinError → List (String × List String)
  | .HttpRequestError _ _ _ _ _ _ _ errors _ => errors
  | _ => []

/-- `handle_http_error` from `src/utils.rs`. The response is given as its
status code and body text (`resp.text().await.unwrap_or_default()`
already applied), and `parsed` is the result of
`serde_json::from_str::<Value>(&body)`: `some v` when the body parses as
JSON value `v`, `none` when parsing fails. -/
def handle_http_error (status : Nat) (body : String) (parsed : Option Json) :
    JellyfinError :=
  match parsed with
  | some parsedBody =>
      let errors : List (String × List String) :=
        match (parsedBody.getKey "errors").bind Json.as_object with
        | some errs =>
            errs.filterMap (fun kv =>
              match kv.2.as_array with
              | some msgs => some (kv.1, msgs.filterMap Json.as_str)
              | none => none)
        | none => []
      .HttpRequestError status
        ((parsedBody.getKey "type").bind Json.as_str)
        ((parsedBody.getKey "title").bind Json.as_str)
        ((parsedBody.getKey "detail").bind Json.as_str)
        ((parsedBody.getKey "instance").bind Json.as_str)
        none none errors body
  | none =>
      .HttpRequestError status none none none none none none [] body

/-- `SubtitleMode`. Modelled from the spec: the enum's declaration lives
in a revision of `user.rs` not present in the snapshot (the snapshot's
`UserConfiguration.subtitle_mode` is a plain `String`), but its five
variants are enumerated verbatim by the `match` arms of
`src/serde/subtitle_mode_serde.rs` and by the spec's
"{Default, Always, OnlyForced, None, Smart}". -/
inductive SubtitleMode where
  | Default
  | Always
  | OnlyForced
  | None
  | Smart
deriving DecidableEq, Repr

/-- `serialize` from `src/serde/subtitle_mode_serde.rs`: the wire string
written for a mode. -/
def SubtitleMode.serialize : SubtitleMode → String
  | .Default => "Default"
  | .Always => "Always"
  | .OnlyForced => "OnlyForced"
  | .None => "None"
  | .Smart => "Smart"

/-- `deserialize` from `src/serde/subtitle_mode_serde.rs`: the mode read
back from a wire string. -/
def SubtitleMode.deserialize (s : String) : Except String SubtitleMode :=
  match s with
  | "Default" => .ok .Default
  | "Always" => .ok .Always
  | "OnlyForced" => .ok .OnlyForced
  | "None" => .ok .None
  | "Smart" => .ok .Smart
  | _ => .error "Invalid subtitle mode"

/-- `UserConfiguration` from `src/user.rs` (lines 30–48). In this
snapshot `subtitle_mode` is a plain `String`. -/
structure UserConfiguration where
  audio_language_preference : Option String
  play_default_audio_track : Bool
  subtitle_language_preference : String
  display_missing_episodes : Bool
  grouped_folders : List String
  subtitle_mode : String
  display_collections_view : Bool
  enable_local_password : Bool
  ordered_views : List String
  latest_items_excludes : List String
  my_media_excludes : List String
  hide_played_in_latest : Bool
  remember_audio_selections : Bool
  remember_subtitle_selections : Bool
  enable_next_episode_auto_play : Bool
deriving DecidableEq, Inhabited

/-- `UserAccessSchedule` from `src/user.rs` (lines 94–101). -/
structure UserAccessSchedule where
  user_id : String
  day_of_week : String
  start_hour : Int
  end_hour : Int
deriving DecidableEq, Inhabited

/-- `UserPolicy` from `src/user.rs` (lines 50–92). -/
structure UserPolicy where
  is_administrator : Bool
  is_hidden : Bool
  is_disabled : Bool
  max_parental_rating : Option Int
  blocked_tags : List String
  enable_user_preference_access : Bool
  access_schedules : List UserAccessSchedule
  block_unrated_items : List String
  enable_remote_control_of_other_users : Bool
  enable_shared_device_control : Bool
  enable_remote_access : Bool
  enable_live_tv_management : Bool
  enable_live_tv_access : Bool
  enable_media_playback : Bool
  enable_audio_playback_transcoding : Bool
  enable_video_playback_transcoding : Bool
  enable_playback_remuxing : Bool
  force_remote_source_transcoding : Bool
  enable_content_deletion : Bool
  enable_content_deletion_from_folders : List String
  enable_content_downloading : Bool
  enable_sync_transcoding : Bool
  enable_media_conversion : Bool
  enabled_devices : List String
  enable_all_devices : Bool
  enabled_channels : List String
  enable_all_channels : Bool
  enabled_folders : List String
  enable_all_folders : Bool
  invalid_login_attempt_count : Int
  login_attempts_before_lockout : Int
  max_active_sessions : Int
  enable_public_sharing : Bool
  blocked_media_folders : List String
  blocked_channels : List String
  remote_client_bitrate_limit : Int
  authentication_provider_id : String
  password_reset_provider_id : String
  sync_play_access : String
deriving DecidableEq, Inhabited

/-- `User` from `src/user.rs` (lines 11–28). -/
structure User where
  name : String
  server_id : String
  server_name : Option String
  id : String
  primary_image_tag : Option String
  has_password : Bool
  has_configured_password : Bool
  has_configured_easy_password : Bool
  enable_auto_login : Bool
  last_login_date : Option String
  last_activity_date : Option String
  configuration : UserConfiguration
  policy : UserPolicy
  primary_image_aspect_ratio : Option Int
deriving DecidableEq, Inhabited

/-- `SessionInfo`. Modelled from the spec: `src/session.rs` is not in the
snapshot; the spec describes it only as "a session descriptor" / "session
metadata" inside the session record, and no claim inspects it, so it is
modelled as an opaque record carrying its server-assigned identifier. -/
structure SessionInfo where
  id : String
deriving DecidableEq, Inhabited

/-- `UserAuth` from `src/user.rs` (lines 103–110): the stored session
record. -/
structure UserAuth where
  user : User
  session_info : SessionInfo
  access_token : String
  server_id : String
deriving DecidableEq, Inhabited

/-- `JellyfinClient` from `src/lib.rs` (lines 11–16). The parsed base
`Url` is kept as its string rendering; joining is the `url` crate's
fallible join, passed in as an oracle. The `reqwest::Client` handle has
no observable state and is not modelled. -/
structure JellyfinClient where
  url : String
  auth : Option UserAuth
deriving DecidableEq, Inhabited

/-- `str::trim_end_matches('/')`: drop every trailing slash. -/
def trim_end_slashes (s : String) : String :=
  ⟨(s.data.reverse.dropWhile (fun c => c = '/')).reverse⟩

/-- `JellyfinClient::new` from `src/lib.rs` (lines 57–66): trim trailing
slashes, parse the base URL (the `url` crate's `Url::parse` is the
`parse` oracle, returning the parsed URL's rendering), store it with no
session record; a parse failure becomes `UrlParseError` via the `?` and
the `From<url::ParseError>` impl. -/
def JellyfinClient.new (parse : String → Option String) (url : String) :
    Except JellyfinError JellyfinClient :=
  let trimmed_url_str := trim_end_slashes url
  match parse trimmed_url_str with
  | none => .error .UrlParseError
  | some u => .ok { url := u, auth := none }

/-- `str::replace(' ', "_")` as applied to the device name: every space
character becomes an underscore. -/
def replace_spaces (s : String) : String :=
  ⟨s.data.map (fun c => if c = ' ' then '_' else c)⟩

/-- `UserAuth::to_emby_header` from `src/user.rs` (lines 112–118).
`whoami::devicename()` is the `devicename` argument and
`format!("{:x}", md5::compute(s))` is the `md5hex` oracle (the lowercase
hexadecimal rendering of the MD5 digest of `s`). -/
def UserAuth.to_emby_header (md5hex : String → String) (devicename : String)
    (auth : UserAuth) : String :=
  let device_name := replace_spaces devicename
  "MediaBrowser Client=\"jellyfin-rs\", Device=\"" ++ device_name ++
    "\", DeviceId=\"" ++ md5hex device_name ++ "\", Version=1, Token=\"" ++
    auth.access_token ++ "\""

/-- The authorization header built inline by `auth_user_std`,
`auth_user_name`, `user_forgot_password`, `user_redeem_forgot_password_pin`
and `get_public_user_list` (`src/user.rs` lines 376, 606, 648, 691, 807):
the same format string with an empty `Token`. -/
def emby_header_unauth (md5hex : String → String) (devicename : String) :
    String :=
  let device_name := replace_spaces devicename
  "MediaBrowser Client=\"jellyfin-rs\", Device=\"" ++ device_name ++
    "\", DeviceId=\"" ++ md5hex device_name ++ "\", Version=1, Token=\"\""

/-- Modelled from the spec: §6's wire-format template for the
`X-Emby-Authorization` header, `MediaBrowser Client="<fixed-name>",
Device="<device>", DeviceId="<hex-hash>", Version=1,
Token="<token-or-empty>"`, as a function of the four varying parts. -/
def spec_auth_header (client device deviceId token : String) : String :=
  "MediaBrowser Client=\"" ++ client ++ "\", Device=\"" ++ device ++
    "\", DeviceId=\"" ++ deviceId ++ "\", Version=1, Token=\"" ++
    token ++ "\""

/-- One HTTP request as assembled by an endpoint method: verb, joined
endpoint URL, query pairs (in serde field order) and the
`X-Emby-Authorization` header value. JSON request bodies are not
modelled — no claim examines them. -/
structure Request where
  method : String
  url : String
  query : List (String × String)
  authHeader : Option String
deriving DecidableEq, Repr

/-- serde_urlencoded renders a boolean query value as
`"true"`/`"false"`. -/
def boolValue (b : Bool) : String :=
  if b then "true" else "false"

/-- Oracle for one `send().await` round trip: the transport either fails
(`netError`), or delivers a success-status response whose
`resp.json::<α>()` result is `deser` (`none` = deserialization failed,
mapped to `NetworkError` by the source), or delivers a non-success
status with `resp.text()` result `body` (`none` = text extraction
failed, defaulted to `""` by `unwrap_or_default`). -/
inductive HttpOutcome (α : Type) where
  | netError
  | success (deser : Option α)
  | failure (status : Nat) (body : Option String)

/-- Result of a Rust function that may panic: `fatal` models a panic
(here always the `.expect("Failed to join URL")` call), `ret` a normal
return. -/
inductive PanicOr (α : Type) where
  | fatal (msg : String)
  | ret (val : α)

section Endpoints

variable (join : String → String → Option String)
variable (devicename : String)
variable (md5hex : String → String)

/-- `JellyfinClient::get_users` from `src/user.rs` (lines 164–201). -/
def get_users (c : JellyfinClient) (is_hidden is_disabled : Bool)
    (out : HttpOutcome (List User)) :
    PanicOr (Except JellyfinError (List User) × List Request) :=
  match join c.url "/Users" with
  | none => .fatal "Failed to join URL"
  | some endpoint_url =>
    match c.auth with
    | none => .ret (.error .AuthNotFound, [])
    | some auth =>
      let req : Request :=
        { method := "GET", url := endpoint_url
          query := [("is_hidden", boolValue is_hidden),
                    ("is_disabled", boolValue is_disabled)]
          authHeader := some (auth.to_emby_header md5hex devicename) }
      match out with
      | .netError => .ret (.error .NetworkError, [req])
      | .success none => .ret (.error .NetworkError, [req])
      | .success (some users) => .ret (.ok users, [req])
      | .failure status body =>
          .ret (.error (.HttpRequestError status none none none none
            none none [] (body.getD "")), [req])

/-- `JellyfinClient::get_user_by_id` from `src/user.rs`
(lines 212–249). -/
def get_user_by_id (c : JellyfinClient) (id : String)
    (out : HttpOutcome User) :
    PanicOr (Except JellyfinError User × List Request) :=
  match join c.url ("/Users/" ++ id) with
  | none => .fatal "Failed to join URL"
  | some endpoint_url =>
    match c.auth with
    | none => .ret (.error .AuthNotFound, [])
    | some auth =>
      let req : Request :=
        { method := "GET", url := endpoint_url, query := []
          authHeader := some (auth.to_emby_header md5hex devicename) }
      match out with
      | .netError => .ret (.error .NetworkError, [req])
      | .success none => .ret (.error .NetworkError, [req])
      | .success (some user) => .ret (.ok user, [req])
      | .failure status body =>
          .ret (.error (.HttpRequestError status none none none none
            none none [] (body.getD "")), [req])

/-- `JellyfinClient::delete_user` from `src/user.rs` (lines 260–295).
The success branch returns `Ok(())` without reading the body. -/
def delete_user (c : JellyfinClient) (id : String)
    (out : HttpOutcome Unit) :
    PanicOr (Except JellyfinError Unit × List Request) :=
  match join c.url ("/Users/" ++ id) with
  | none => .fatal "Failed to join URL"
  | some endpoint_url =>
    match c.auth with
    | none => .ret (.error .AuthNotFound, [])
    | some auth =>
      let req : Request :=
        { method := "DELETE", url := endpoint_url, query := []
          authHeader := some (auth.to_emby_header md5hex devicename) }
      match out with
      | .netError => .ret (.error .NetworkError, [req])
      | .success _ => .ret (.ok (), [req])
      | .failure status body =>
          .ret (.error (.HttpRequestError status none none none none
            none none [] (body.getD "")), [req])

/-- `JellyfinClient::update_user` from `src/user.rs` (lines 307–343).
The JSON body is `new_info`; bodies are not modelled in `Request`. -/
def update_user (c : JellyfinClient) (id : String) (new_info : User)
    (out : HttpOutcome Unit) :
    PanicOr (Except JellyfinError Unit × List Request) :=
  match join c.url ("/Users/" ++ id) with
  | none => .fatal "Failed to join URL"
  | some endpoint_url =>
    match c.auth with
    | none => .ret (.error .AuthNotFound, [])
    | some auth =>
      let req : Request :=
        { method := "POST", url := endpoint_url, query := []
          authHeader := some (auth.to_emby_header md5hex devicename) }
      match out with
      | .netError => .ret (.error .NetworkError, [req])
      | .success _ => .ret (.ok (), [req])
      | .failure status body =>
          .ret (.error (.HttpRequestError status none none none none
            none none [] (body.getD "")), [req])

/-- `JellyfinClient::update_user_conf` from `src/user.rs`
(lines 408–447). -/
def update_user_conf (c : JellyfinClient) (id : String)
    (new_conf : UserConfiguration) (out : HttpOutcome Unit) :
    PanicOr (Except JellyfinError Unit × List Request) :=
  match join c.url ("/Users/" ++ id ++ "/Configuration") with
  | none => .fatal "Failed to join URL"
  | some endpoint_url =>
    match c.auth with
    | none => .ret (.error .AuthNotFound, [])
    | some auth =>
      let req : Request :=
        { method := "POST", url := endpoint_url, query := []
          authHeader := some (auth.to_emby_header md5hex devicename) }
      match out with
      | .netError => .ret (.error .NetworkError, [req])
      | .success _ => .ret (.ok (), [req])
      | .failure status body =>
          .ret (.error (.HttpRequestError status none none none none
            none none [] (body.getD "")), [req])

/-- `JellyfinClient::update_user_password` from `src/user.rs`
(lines 459–498). -/
def update_user_password (c : JellyfinClient) (id new_password : String)
    (out : HttpOutcome Unit) :
    PanicOr (Except JellyfinError Unit × List Request) :=
  match join c.url ("/Users/" ++ id ++ "/Password") with
  | none => .fatal "Failed to join URL"
  | some endpoint_url =>
    match c.auth with
    | none => .ret (.error .AuthNotFound, [])
    | some auth =>
      let req : Request :=
        { method := "POST", url := endpoint_url, query := []
          authHeader := some (auth.to_emby_header md5hex devicename) }
      match out with
      | .netError => .ret (.error .NetworkError, [req])
      | .success _ => .ret (.ok (), [req])
      | .failure status body =>
          .ret (.error (.HttpRequestError status none none none none
            none none [] (body.getD "")), [req])

/-- `JellyfinClient::update_user_policy` from `src/user.rs`
(lines 510–549). -/
def update_user_policy (c : JellyfinClient) (id : String)
    (new_policy : UserPolicy) (out : HttpOutcome Unit) :
    PanicOr (Except JellyfinError Unit × List Request) :=
  match join c.url ("/Users/" ++ id ++ "/Policy") with
  | none => .fatal "Failed to join URL"
  | some endpoint_url =>
    match c.auth with
    | none => .ret (.error .AuthNotFound, [])
    | some auth =>
      let req : Request :=
        { method := "POST", url := endpoint_url, query := []
          authHeader := some (auth.to_emby_header md5hex devicename) }
      match out with
      | .netError => .ret (.error .NetworkError, [req])
      | .success _ => .ret (.ok (), [req])
      | .failure status body =>
          .ret (.error (.HttpRequestError status none none none none
            none none [] (body.getD "")), [req])

/-- `JellyfinClient::get_user_by_auth` from `src/user.rs`
(lines 717–748). -/
def get_user_by_auth (c : JellyfinClient) (out : HttpOutcome User) :
    PanicOr (Except JellyfinError User × List Request) :=
  match join c.url "/Users/Me" with
  | none => .fatal "Failed to join URL"
  | some endpoint_url =>
    match c.auth with
    | none => .ret (.error .AuthNotFound, [])
    | some auth =>
      let req : Request :=
        { method := "GET", url := endpoint_url, query := []
          authHeader := some (auth.to_emby_header md5hex devicename) }
      match out with
      | .netError => .ret (.error .NetworkError, [req])
      | .success none => .ret (.error .NetworkError, [req])
      | .success (some user) => .ret (.ok user, [req])
      | .failure status body =>
          .ret (.error (.HttpRequestError status none none none none
            none none [] (body.getD "")), [req])

/-- `JellyfinClient::create_user` from `src/user.rs` (lines 760–795).
The JSON body is `{"Name": username, "Password": password}`. -/
def create_user (c : JellyfinClient) (username password : String)
    (out : HttpOutcome User) :
    PanicOr (Except JellyfinError User × List Request) :=
  match join c.url "/Users/New" with
  | none => .fatal "Failed to join URL"
  | some endpoint_url =>
    match c.auth with
    | none => .ret (.error .AuthNotFound, [])
    | some auth =>
      let req : Request :=
        { method := "POST", url := endpoint_url, query := []
          authHeader := some (auth.to_emby_header md5hex devicename) }
      match out with
      | .netError => .ret (.error .NetworkError, [req])
      | .success none => .ret (.error .NetworkError, [req])
      | .success (some user) => .ret (.ok user, [req])
      | .failure status body =>
          .ret (.error (.HttpRequestError status none none none none
            none none [] (body.getD "")), [req])

/-- `JellyfinClient::auth_user_std` from `src/user.rs` (lines 355–396).
`sha1hex` is the oracle for `format!("{:x}", Sha1::digest(password))`
(lowercase hexadecimal SHA-1 digest); the query is the serialization of
`AuthUserStdQuery { pw: password, password: digest }` (lines 126–130).
On success the parsed `UserAuth` replaces `self.auth`; on every failure
the client is returned unchanged. -/
def auth_user_std (sha1hex : String → String) (c : JellyfinClient)
    (id password : String) (out : HttpOutcome UserAuth) :
    PanicOr (Except JellyfinError Unit × JellyfinClient × List Request) :=
  match join c.url ("/Users/" ++ id ++ "/Authenticate") with
  | none => .fatal "Failed to join URL"
  | some endpoint_url =>
    let req : Request :=
      { method := "POST", url := endpoint_url
        query := [("pw", password), ("password", sha1hex password)]
        authHeader := some (emby_header_unauth md5hex devicename) }
    match out with
    | .netError => .ret (.error .NetworkError, c, [req])
    | .success none => .ret (.error .NetworkError, c, [req])
    | .success (some ua) => .ret (.ok (), { c with auth := some ua }, [req])
    | .failure status body =>
        .ret (.error (.HttpRequestError status none none none none
          none none [] (body.getD "")), c, [req])

/-- `JellyfinClient::auth_user_name` from `src/user.rs` (lines 589–627).
The credentials travel in the JSON body
(`AuthUserNameQuery { username, pw }`, not modelled); on success the
parsed `UserAuth` replaces `self.auth`, on every failure the client is
returned unchanged. -/
def auth_user_name (c : JellyfinClient) (username password : String)
    (out : HttpOutcome UserAuth) :
    PanicOr (Except JellyfinError Unit × JellyfinClient × List Request) :=
  match join c.url "/Users/AuthenticateByName" with
  | none => .fatal "Failed to join URL"
  | some endpoint_url =>
    let req : Request :=
      { method := "POST", url := endpoint_url, query := []
        authHeader := some (emby_header_unauth md5hex devicename) }
    match out with
    | .netError => .ret (.error .NetworkError, c, [req])
    | .success none => .ret (.error .NetworkError, c, [req])
    | .success (some ua) => .ret (.ok (), { c with auth := some ua }, [req])
    | .failure status body =>
        .ret (.error (.HttpRequestError status none none none none
          none none [] (body.getD "")), c, [req])

end Endpoints

/-! Concrete fixtures used by the witness theorems. -/

/-- A concrete session record. -/
def uaW : UserAuth :=
  { user := default, session_info := ⟨"s"⟩, access_token := "tok"
    server_id := "srv" }

/-- A client holding a session record. -/
def clientAuthedW : JellyfinClient :=
  { url := "http://example.com", auth := some uaW }

/-- A client with no session record. -/
def clientNoAuthW : JellyfinClient :=
  { url := "http://example.com", auth := none }

/-- A join oracle that always succeeds by plain concatenation. -/
def joinW : String → String → Option String :=
  fun base path => some (base ++ path)

/-- A join oracle that always fails. -/
def joinNoneW : String → String → Option String := fun _ _ => none

/-- A parse oracle that accepts every string unchanged; together with
`joinW` it satisfies the url-crate contract that parse-accepted bases
always join. -/
def parseW : String → Option String := fun s => some s

/-- A concrete MD5-hex oracle. -/
def md5W : String → String := fun _ => "9f86d081884c7d65"

/-- A concrete SHA-1-hex oracle. -/
def sha1W : String → String := fun s => s ++ "#sha1"

/-! Claims -/

/-- Claim C8: for every subtitle mode in {Default, Always, OnlyForced,
None, Smart}, serializing to the wire string and deserializing that
string yields the same mode. -/
theorem subtitle_mode_roundtrip (m : SubtitleMode) :
    SubtitleMode.deserialize (SubtitleMode.serialize m) = .ok m := by
  cases m <;> rfl

/-- Claim C5: the error-body decoder always yields the structured
`HttpRequestError` variant, and on a body that does not parse as JSON
the message is the raw body text, the four problem fields are absent and
the field-error map is empty. -/
theorem handle_http_error_total (status : Nat) (body : String)
    (parsed : Option Json) :
    (handle_http_error status body parsed).isHttpRequestError = true ∧
    handle_http_error status body none =
      .HttpRequestError status none none none none none none [] body := by
  refine ⟨?_, rfl⟩
  cases parsed <;> rfl

/-- Claim C4: when the parsed JSON error body has an `errors` object
mapping one field name to a one-message list, the decoded field-error
map is exactly that entry; when the `errors` field is absent the map is
empty. -/
theorem handle_http_error_field_errors (status : Nat) (body f m : String)
    (fields : List (String × Json)) :
    (fields.lookup "errors" = some (.obj [(f, .arr [.str m])]) →
      (handle_http_error status body (some (.obj fields))).errorMap =
        [(f, [m])]) ∧
    (fields.lookup "errors" = none →
      (handle_http_error status body (some (.obj fields))).errorMap = []) := by
  constructor <;> intro h <;>
    simp [handle_http_error, Json.getKey, h, Json.as_object, Json.as_array,
      Json.as_str, JellyfinError.errorMap]

/-- Witness for C4 at a concrete decoded body with one field error and
one without an `errors` field. -/
theorem handle_http_error_field_errors_witness :
    (handle_http_error 400 "raw"
      (some (.obj [("errors", .obj [("Name", .arr [.str "bad"])])]))).errorMap =
      [("Name", ["bad"])] ∧
    (handle_http_error 400 "raw"
      (some (.obj [("title", .str "t")]))).errorMap = [] :=
  ⟨(handle_http_error_field_errors 400 "raw" "Name" "bad"
      [("errors", .obj [("Name", .arr [.str "bad"])])]).1 rfl,
   (handle_http_error_field_errors 400 "raw" "x" "y"
      [("title", .str "t")]).2 rfl⟩

/-- Claim C6: the derived authorization header is exactly the spec's
template with the fixed client name, the underscored device name, the
hex digest of that underscored name and the stored token (empty during
authentication calls), and it depends on the session record only through
the access token. -/
theorem emby_header_matches_spec (md5hex : String → String)
    (devicename : String) (auth : UserAuth) :
    auth.to_emby_header md5hex devicename =
      spec_auth_header "jellyfin-rs" (replace_spaces devicename)
        (md5hex (replace_spaces devicename)) auth.access_token ∧
    emby_header_unauth md5hex devicename =
      spec_auth_header "jellyfin-rs" (replace_spaces devicename)
        (md5hex (replace_spaces devicename)) "" ∧
    (∀ auth2 : UserAuth, auth2.access_token = auth.access_token →
      auth2.to_emby_header md5hex devicename =
        auth.to_emby_header md5hex devicename) := by
  refine ⟨?_, ?_, fun auth2 h => ?_⟩
  · apply String.ext
    simp [UserAuth.to_emby_header, spec_auth_header, String.data_append,
      List.append_assoc]
  · apply String.ext
    simp [emby_header_unauth, spec_auth_header, String.data_append,
      List.append_assoc]
  · simp [UserAuth.to_emby_header, h]

/-- Witness for C6 at a concrete device name with a space and a session
record differing only outside the token. -/
theorem emby_header_matches_spec_witness :
    UserAuth.to_emby_header md5W "my device" uaW =
      spec_auth_header "jellyfin-rs" "my_device" (md5W "my_device") "tok" ∧
    UserAuth.to_emby_header md5W "my device"
        { uaW with server_id := "other" } =
      UserAuth.to_emby_header md5W "my device" uaW := by
  have h := emby_header_matches_spec md5W "my device" uaW
  exact ⟨h.1, h.2.2 { uaW with server_id := "other" } rfl⟩

/-- Claim C1: with no session record stored, every
authentication-requiring endpoint method returns `AuthNotFound` and
sends no HTTP request (the emitted request list is empty). -/
theorem auth_required_fail_fast
    (join : String → String → Option String) (devicename : String)
    (md5hex : String → String) (c : JellyfinClient)
    (hauth : c.auth = none)
    (hjoin : ∀ path, (join c.url path).isSome)
    (is_hidden is_disabled : Bool) (id username password : String)
    (new_info : User) (new_conf : UserConfiguration)
    (new_policy : UserPolicy) (new_password : String)
    (o1 : HttpOutcome (List User)) (o2 o3 o4 : HttpOutcome User)
    (o5 o6 o7 o8 o9 : HttpOutcome Unit) :
    get_users join devicename md5hex c is_hidden is_disabled o1 =
      .ret (.error .AuthNotFound, []) ∧
    get_user_by_id join devicename md5hex c id o2 =
      .ret (.error .AuthNotFound, []) ∧
    delete_user join devicename md5hex c id o5 =
      .ret (.error .AuthNotFound, []) ∧
    update_user join devicename md5hex c id new_info o6 =
      .ret (.error .AuthNotFound, []) ∧
    update_user_conf join devicename md5hex c id new_conf o7 =
      .ret (.error .AuthNotFound, []) ∧
    update_user_password join devicename md5hex c id new_password o8 =
      .ret (.error .AuthNotFound, []) ∧
    update_user_policy join devicename md5hex c id new_policy o9 =
      .ret (.error .AuthNotFound, []) ∧
    get_user_by_auth join devicename md5hex c o3 =
      .ret (.error .AuthNotFound, []) ∧
    create_user join devicename md5hex c username password o4 =
      .ret (.error .AuthNotFound, []) := by
  refine ⟨?_, ?_, ?_, ?_, ?_, ?_, ?_, ?_, ?_⟩ <;>
    [obtain ⟨u, hu⟩ := Option.isSome_iff_exists.mp (hjoin "/Users");
     obtain ⟨u, hu⟩ := Option.isSome_iff_exists.mp (hjoin ("/Users/" ++ id));
     obtain ⟨u, hu⟩ := Option.isSome_iff_exists.mp (hjoin ("/Users/" ++ id));
     obtain ⟨u, hu⟩ := Option.isSome_iff_exists.mp (hjoin ("/Users/" ++ id));
     obtain ⟨u, hu⟩ := Option.isSome_iff_exists.mp
       (hjoin ("/Users/" ++ id ++ "/Configuration"));
     obtain ⟨u, hu⟩ := Option.isSome_iff_exists.mp
       (hjoin ("/Users/" ++ id ++ "/Password"));
     obtain ⟨u, hu⟩ := Option.isSome_iff_exists.mp
       (hjoin ("/Users/" ++ id ++ "/Policy"));
     obtain ⟨u, hu⟩ := Option.isSome_iff_exists.mp (hjoin "/Users/Me");
     obtain ⟨u, hu⟩ := Option.isSome_iff_exists.mp (hjoin "/Users/New")] <;>
    simp [get_users, get_user_by_id, delete_user, update_user,
      update_user_conf, update_user_password, update_user_policy,
      get_user_by_auth, create_user, hu, hauth]

/-- Witness for C1: a concrete unauthenticated client with a joinable
base URL, checked on `get_users` and `create_user`. -/
theorem auth_required_fail_fast_witness :
    get_users joinW "dev" md5W clientNoAuthW false false .netError =
      .ret (.error .AuthNotFound, []) ∧
    create_user joinW "dev" md5W clientNoAuthW "u" "p" .netError =
      .ret (.error .AuthNotFound, []) := by
  have h := auth_required_fail_fast joinW "dev" md5W clientNoAuthW rfl
    (fun _ => rfl) false false "i" "u" "p" default default default "np"
    .netError .netError .netError .netError .netError .netError .netError
    .netError .netError
  exact ⟨h.1, h.2.2.2.2.2.2.2.2⟩

/-- Claim C2: for `auth_user_std` and `auth_user_name`, a success-status
response whose body deserializes replaces the stored session record with
the returned one; every failure (network error, deserialization failure,
non-success status) returns an error and leaves the client's session
record unchanged. -/
theorem auth_replaces_session_only_on_success
    (join : String → String → Option String) (devicename : String)
    (md5hex sha1hex : String → String) (c : JellyfinClient)
    (id password username : String) (ustd uname : String)
    (hstd : join c.url ("/Users/" ++ id ++ "/Authenticate") = some ustd)
    (hname : join c.url "/Users/AuthenticateByName" = some uname) :
    (∀ ua : UserAuth,
      (∃ reqs, auth_user_std join devicename md5hex sha1hex c id password
          (.success (some ua)) =
        .ret (.ok (), { c with auth := some ua }, reqs)) ∧
      (∃ reqs, auth_user_name join devicename md5hex c username password
          (.success (some ua)) =
        .ret (.ok (), { c with auth := some ua }, reqs))) ∧
    (∀ out : HttpOutcome UserAuth, (∀ ua, out ≠ .success (some ua)) →
      (∃ e reqs, auth_user_std join devicename md5hex sha1hex c id password
          out = .ret (.error e, c, reqs)) ∧
      (∃ e reqs, auth_user_name join devicename md5hex c username password
          out = .ret (.error e, c, reqs))) := by
  constructor
  · intro ua
    constructor
    · exact ⟨_, by simp [auth_user_std, hstd]; rfl⟩
    · exact ⟨_, by simp [auth_user_name, hname]; rfl⟩
  · intro out hout
    match out with
    | .netError =>
        exact ⟨⟨.NetworkError, _, by simp [auth_user_std, hstd]; rfl⟩,
          ⟨.NetworkError, _, by simp [auth_user_name, hname]; rfl⟩⟩
    | .success none =>
        exact ⟨⟨.NetworkError, _, by simp [auth_user_std, hstd]; rfl⟩,
          ⟨.NetworkError, _, by simp [auth_user_name, hname]; rfl⟩⟩
    | .success (some ua) => exact absurd rfl (hout ua)
    | .failure status body =>
        exact ⟨⟨.HttpRequestError status none none none none none none []
            (body.getD ""), _, by simp [auth_user_std, hstd]; rfl⟩,
          ⟨.HttpRequestError status none none none none none none []
            (body.getD ""), _, by simp [auth_user_name, hname]; rfl⟩⟩

/-- Witness for C2: a concrete client, one successful authentication
replacing the (absent) session record and one 401 failure leaving it
unchanged. -/
theorem auth_replaces_session_only_on_success_witness :
    (∃ reqs, auth_user_std joinW "dev" md5W sha1W clientNoAuthW "i" "p"
        (.success (some uaW)) =
      .ret (.ok (), { clientNoAuthW with auth := some uaW }, reqs)) ∧
    (∃ e reqs, auth_user_name joinW "dev" md5W clientNoAuthW "u" "p"
        (.failure 401 (some "Invalid user or password")) =
      .ret (.error e, clientNoAuthW, reqs)) := by
  have h := auth_replaces_session_only_on_success joinW "dev" md5W sha1W
    clientNoAuthW "i" "p" "u" _ _ rfl rfl
  exact ⟨(h.1 uaW).1,
    (h.2 (.failure 401 (some "Invalid user or password"))
      (fun ua hua => by cases hua)).2⟩

/-- Claim C7: `auth_user_std` sends the SHA-1 hex digest of the password
as the `password` query parameter of the one POST
`/Users/{id}/Authenticate` request (the digest oracle `sha1hex` stands
for `format!("{:x}", Sha1::digest(password))`). -/
theorem auth_user_std_sends_sha1_digest
    (join : String → String → Option String) (devicename : String)
    (md5hex sha1hex : String → String) (c : JellyfinClient)
    (id password : String) (out : HttpOutcome UserAuth) (ustd : String)
    (hj : join c.url ("/Users/" ++ id ++ "/Authenticate") = some ustd) :
    ∃ res, auth_user_std join devicename md5hex sha1hex c id password out =
      .ret res ∧
    res.2.2 = [{ method := "POST", url := ustd
                 query := [("pw", password), ("password", sha1hex password)]
                 authHeader := some (emby_header_unauth md5hex devicename) }] := by
  simp only [auth_user_std, hj]
  rcases out with _ | (_ | ua) | ⟨status, body⟩ <;> exact ⟨_, rfl, rfl⟩

/-- Witness for C7 at a concrete client, id and password. -/
theorem auth_user_std_sends_sha1_digest_witness :
    ∃ res, auth_user_std joinW "dev" md5W sha1W clientNoAuthW "i" "p"
      .netError = .ret res ∧
    res.2.2 = [{ method := "POST", url := "http://example.com/Users/i/Authenticate"
                 query := [("pw", "p"), ("password", sha1W "p")]
                 authHeader := some (emby_header_unauth md5W "dev") }] :=
  auth_user_std_sends_sha1_digest joinW "dev" md5W sha1W clientNoAuthW
    "i" "p" .netError "http://example.com/Users/i/Authenticate" rfl

/-- Claim C10: the same `auth_user_std` request also carries the
plaintext password as the `pw` query parameter, alongside the SHA-1
digest sent as `password` (field order of `AuthUserStdQuery`). -/
theorem auth_user_std_sends_plaintext_pw
    (join : String → String → Option String) (devicename : String)
    (md5hex sha1hex : String → String) (c : JellyfinClient)
    (id password : String) (out : HttpOutcome UserAuth) (ustd : String)
    (hj : join c.url ("/Users/" ++ id ++ "/Authenticate") = some ustd) :
    ∃ res, auth_user_std join devicename md5hex sha1hex c id password out =
      .ret res ∧
    ∃ req, res.2.2 = [req] ∧ ("pw", password) ∈ req.query ∧
      ("password", sha1hex password) ∈ req.query := by
  simp only [auth_user_std, hj]
  rcases out with _ | (_ | ua) | ⟨status, body⟩ <;>
    exact ⟨_, rfl, _, rfl, by simp, by simp⟩

/-- Witness for C10 at a concrete client, id and password. -/
theorem auth_user_std_sends_plaintext_pw_witness :
    ∃ res, auth_user_std joinW "dev" md5W sha1W clientNoAuthW "i" "p"
      .netError = .ret res ∧
    ∃ req, res.2.2 = [req] ∧ ("pw", "p") ∈ req.query ∧
      ("password", sha1W "p") ∈ req.query :=
  auth_user_std_sends_plaintext_pw joinW "dev" md5W sha1W clientNoAuthW
    "i" "p" .netError "http://example.com/Users/i/Authenticate" rfl

/-- A successful `JellyfinClient::new` stores the parse-accepted
(trimmed) base URL and no session record. -/
theorem new_ok_parse (parse : String → Option String) (url0 : String)
    (c : JellyfinClient) (h : JellyfinClient.new parse url0 = .ok c) :
    parse (trim_end_slashes url0) = some c.url ∧ c.auth = none := by
  rcases hp : parse (trim_end_slashes url0) with _ | u <;>
    simp only [JellyfinClient.new, hp] at h
  · exact Except.noConfusion h
  · injection h with h1
    subst h1
    exact ⟨rfl, rfl⟩

/-- Claim C9: for every endpoint method, a failing base-URL join
terminates fatally (the `.expect` panic), never as a recoverable error
(no method result ever carries `UrlParseError`); and for a client that
`JellyfinClient::new` constructed from a parse-accepted base URL — under
the url-crate contract that parse-accepted bases always join, the
property construction-time validation is meant to establish — the fatal
branch is unreachable in every endpoint method, whatever session record
the client has since acquired. -/
theorem url_join_failure_is_fatal
    (parse : String → Option String)
    (join : String → String → Option String) (devicename : String)
    (md5hex sha1hex : String → String) (c : JellyfinClient)
    (is_hidden is_disabled : Bool)
    (id username password new_password : String) (new_info : User)
    (new_conf : UserConfiguration) (new_policy : UserPolicy)
    (o1 : HttpOutcome (List User)) (o2 o3 o4 : HttpOutcome User)
    (o5 o6 o7 o8 o9 : HttpOutcome Unit) (o10 o11 : HttpOutcome UserAuth) :
    ((join c.url "/Users" = none →
      get_users join devicename md5hex c is_hidden is_disabled o1 =
        .fatal "Failed to join URL") ∧
     (join c.url ("/Users/" ++ id) = none →
      get_user_by_id join devicename md5hex c id o2 =
        .fatal "Failed to join URL") ∧
     (join c.url ("/Users/" ++ id) = none →
      delete_user join devicename md5hex c id o5 =
        .fatal "Failed to join URL") ∧
     (join c.url ("/Users/" ++ id) = none →
      update_user join devicename md5hex c id new_info o6 =
        .fatal "Failed to join URL") ∧
     (join c.url ("/Users/" ++ id ++ "/Configuration") = none →
      update_user_conf join devicename md5hex c id new_conf o7 =
        .fatal "Failed to join URL") ∧
     (join c.url ("/Users/" ++ id ++ "/Password") = none →
      update_user_password join devicename md5hex c id new_password o8 =
        .fatal "Failed to join URL") ∧
     (join c.url ("/Users/" ++ id ++ "/Policy") = none →
      update_user_policy join devicename md5hex c id new_policy o9 =
        .fatal "Failed to join URL") ∧
     (join c.url "/Users/Me" = none →
      get_user_by_auth join devicename md5hex c o3 =
        .fatal "Failed to join URL") ∧
     (join c.url "/Users/New" = none →
      create_user join devicename md5hex c username password o4 =
        .fatal "Failed to join URL") ∧
     (join c.url ("/Users/" ++ id ++ "/Authenticate") = none →
      auth_user_std join devicename md5hex sha1hex c id password o10 =
        .fatal "Failed to join URL") ∧
     (join c.url "/Users/AuthenticateByName" = none →
      auth_user_name join devicename md5hex c username password o11 =
        .fatal "Failed to join URL")) ∧
    ((∀ res, get_users join devicename md5hex c is_hidden is_disabled o1 =
        .ret res → res.1 ≠ .error .UrlParseError) ∧
     (∀ res, get_user_by_id join devicename md5hex c id o2 = .ret res →
        res.1 ≠ .error .UrlParseError) ∧
     (∀ res, delete_user join devicename md5hex c id o5 = .ret res →
        res.1 ≠ .error .UrlParseError) ∧
     (∀ res, update_user join devicename md5hex c id new_info o6 = .ret res →
        res.1 ≠ .error .UrlParseError) ∧
     (∀ res, update_user_conf join devicename md5hex c id new_conf o7 =
        .ret res → res.1 ≠ .error .UrlParseError) ∧
     (∀ res, update_user_password join devicename md5hex c id new_password
        o8 = .ret res → res.1 ≠ .error .UrlParseError) ∧
     (∀ res, update_user_policy join devicename md5hex c id new_policy o9 =
        .ret res → res.1 ≠ .error .UrlParseError) ∧
     (∀ res, get_user_by_auth join devicename md5hex c o3 = .ret res →
        res.1 ≠ .error .UrlParseError) ∧
     (∀ res, create_user join devicename md5hex c username password o4 =
        .ret res → res.1 ≠ .error .UrlParseError) ∧
     (∀ res, auth_user_std join devicename md5hex sha1hex c id password o10 =
        .ret res → res.1 ≠ .error .UrlParseError) ∧
     (∀ res, auth_user_name join devicename md5hex c username password o11 =
        .ret res → res.1 ≠ .error .UrlParseError)) ∧
    (∀ url0 c2, JellyfinClient.new parse url0 = .ok c2 →
     (∀ s u, parse s = some u → ∀ path, (join u path).isSome) →
     ∀ a2 : Option UserAuth,
      (∀ msg, get_users join devicename md5hex ⟨c2.url, a2⟩ is_hidden
        is_disabled o1 ≠ .fatal msg) ∧
      (∀ msg, get_user_by_id join devicename md5hex ⟨c2.url, a2⟩ id o2 ≠
        .fatal msg) ∧
      (∀ msg, delete_user join devicename md5hex ⟨c2.url, a2⟩ id o5 ≠
        .fatal msg) ∧
      (∀ msg, update_user join devicename md5hex ⟨c2.url, a2⟩ id new_info
        o6 ≠ .fatal msg) ∧
      (∀ msg, update_user_conf join devicename md5hex ⟨c2.url, a2⟩ id
        new_conf o7 ≠ .fatal msg) ∧
      (∀ msg, update_user_password join devicename md5hex ⟨c2.url, a2⟩ id
        new_password o8 ≠ .fatal msg) ∧
      (∀ msg, update_user_policy join devicename md5hex ⟨c2.url, a2⟩ id
        new_policy o9 ≠ .fatal msg) ∧
      (∀ msg, get_user_by_auth join devicename md5hex ⟨c2.url, a2⟩ o3 ≠
        .fatal msg) ∧
      (∀ msg, create_user join devicename md5hex ⟨c2.url, a2⟩ username
        password o4 ≠ .fatal msg) ∧
      (∀ msg, auth_user_std join devicename md5hex sha1hex ⟨c2.url, a2⟩ id
        password o10 ≠ .fatal msg) ∧
      (∀ msg, auth_user_name join devicename md5hex ⟨c2.url, a2⟩ username
        password o11 ≠ .fatal msg)) := by
  refine ⟨⟨fun h => by simp [get_users, h],
    fun h => by simp [get_user_by_id, h],
    fun h => by simp [delete_user, h],
    fun h => by simp [update_user, h],
    fun h => by simp [update_user_conf, h],
    fun h => by simp [update_user_password, h],
    fun h => by simp [update_user_policy, h],
    fun h => by simp [get_user_by_auth, h],
    fun h => by simp [create_user, h],
    fun h => by simp [auth_user_std, h],
    fun h => by simp [auth_user_name, h]⟩,
    ⟨?_, ?_, ?_, ?_, ?_, ?_, ?_, ?_, ?_, ?_, ?_⟩, ?_⟩
  · intro res h
    rcases hj : join c.url "/Users" with _ | u <;> simp [get_users, hj] at h
    rcases hc : c.auth with _ | a <;> rw [hc] at h <;>
      [skip; rcases o1 with _ | (_ | v) | ⟨status, body⟩] <;>
      simp at h <;> simp [← h]
  · intro res h
    rcases hj : join c.url ("/Users/" ++ id) with _ | u <;>
      simp [get_user_by_id, hj] at h
    rcases hc : c.auth with _ | a <;> rw [hc] at h <;>
      [skip; rcases o2 with _ | (_ | v) | ⟨status, body⟩] <;>
      simp at h <;> simp [← h]
  · intro res h
    rcases hj : join c.url ("/Users/" ++ id) with _ | u <;>
      simp [delete_user, hj] at h
    rcases hc : c.auth with _ | a <;> rw [hc] at h <;>
      [skip; rcases o5 with _ | d | ⟨status, body⟩] <;>
      simp at h <;> simp [← h]
  · intro res h
    rcases hj : join c.url ("/Users/" ++ id) with _ | u <;>
      simp [update_user, hj] at h
    rcases hc : c.auth with _ | a <;> rw [hc] at h <;>
      [skip; rcases o6 with _ | d | ⟨status, body⟩] <;>
      simp at h <;> simp [← h]
  · intro res h
    rcases hj : join c.url ("/Users/" ++ id ++ "/Configuration") with _ | u <;>
      simp [update_user_conf, hj] at h
    rcases hc : c.auth with _ | a <;> rw [hc] at h <;>
      [skip; rcases o7 with _ | d | ⟨status, body⟩] <;>
      simp at h <;> simp [← h]
  · intro res h
    rcases hj : join c.url ("/Users/" ++ id ++ "/Password") with _ | u <;>
      simp [update_user_password, hj] at h
    rcases hc : c.auth with _ | a <;> rw [hc] at h <;>
      [skip; rcases o8 with _ | d | ⟨status, body⟩] <;>
      simp at h <;> simp [← h]
  · intro res h
    rcases hj : join c.url ("/Users/" ++ id ++ "/Policy") with _ | u <;>
      simp [update_user_policy, hj] at h
    rcases hc : c.auth with _ | a <;> rw [hc] at h <;>
      [skip; rcases o9 with _ | d | ⟨status, body⟩] <;>
      simp at h <;> simp [← h]
  · intro res h
    rcases hj : join c.url "/Users/Me" with _ | u <;>
      simp [get_user_by_auth, hj] at h
    rcases hc : c.auth with _ | a <;> rw [hc] at h <;>
      [skip; rcases o3 with _ | (_ | v) | ⟨status, body⟩] <;>
      simp at h <;> simp [← h]
  · intro res h
    rcases hj : join c.url "/Users/New" with _ | u <;>
      simp [create_user, hj] at h
    rcases hc : c.auth with _ | a <;> rw [hc] at h <;>
      [skip; rcases o4 with _ | (_ | v) | ⟨status, body⟩] <;>
      simp at h <;> simp [← h]
  · intro res h
    rcases hj : join c.url ("/Users/" ++ id ++ "/Authenticate") with _ | u <;>
      simp [auth_user_std, hj] at h
    rcases o10 with _ | (_ | v) | ⟨status, body⟩ <;> simp at h <;> simp [← h]
  · intro res h
    rcases hj : join c.url "/Users/AuthenticateByName" with _ | u <;>
      simp [auth_user_name, hj] at h
    rcases o11 with _ | (_ | v) | ⟨status, body⟩ <;> simp at h <;> simp [← h]
  · intro url0 c2 hnew hcrate a2
    obtain ⟨hp, -⟩ := new_ok_parse parse url0 c2 hnew
    refine ⟨?_, ?_, ?_, ?_, ?_, ?_, ?_, ?_, ?_, ?_, ?_⟩
    · intro msg
      obtain ⟨u, hu⟩ := Option.isSome_iff_exists.mp (hcrate _ _ hp "/Users")
      rcases a2 with _ | a <;>
        rcases o1 with _ | (_ | v) | ⟨status, body⟩ <;> simp [get_users, hu]
    · intro msg
      obtain ⟨u, hu⟩ := Option.isSome_iff_exists.mp
        (hcrate _ _ hp ("/Users/" ++ id))
      rcases a2 with _ | a <;>
        rcases o2 with _ | (_ | v) | ⟨status, body⟩ <;>
        simp [get_user_by_id, hu]
    · intro msg
      obtain ⟨u, hu⟩ := Option.isSome_iff_exists.mp
        (hcrate _ _ hp ("/Users/" ++ id))
      rcases a2 with _ | a <;>
        rcases o5 with _ | d | ⟨status, body⟩ <;> simp [delete_user, hu]
    · intro msg
      obtain ⟨u, hu⟩ := Option.isSome_iff_exists.mp
        (hcrate _ _ hp ("/Users/" ++ id))
      rcases a2 with _ | a <;>
        rcases o6 with _ | d | ⟨status, body⟩ <;> simp [update_user, hu]
    · intro msg
      obtain ⟨u, hu⟩ := Option.isSome_iff_exists.mp
        (hcrate _ _ hp ("/Users/" ++ id ++ "/Configuration"))
      rcases a2 with _ | a <;>
        rcases o7 with _ | d | ⟨status, body⟩ <;> simp [update_user_conf, hu]
    · intro msg
      obtain ⟨u, hu⟩ := Option.isSome_iff_exists.mp
        (hcrate _ _ hp ("/Users/" ++ id ++ "/Password"))
      rcases a2 with _ | a <;>
        rcases o8 with _ | d | ⟨status, body⟩ <;>
        simp [update_user_password, hu]
    · intro msg
      obtain ⟨u, hu⟩ := Option.isSome_iff_exists.mp
        (hcrate _ _ hp ("/Users/" ++ id ++ "/Policy"))
      rcases a2 with _ | a <;>
        rcases o9 with _ | d | ⟨status, body⟩ <;>
        simp [update_user_policy, hu]
    · intro msg
      obtain ⟨u, hu⟩ := Option.isSome_iff_exists.mp (hcrate _ _ hp "/Users/Me")
      rcases a2 with _ | a <;>
        rcases o3 with _ | (_ | v) | ⟨status, body⟩ <;>
        simp [get_user_by_auth, hu]
    · intro msg
      obtain ⟨u, hu⟩ := Option.isSome_iff_exists.mp (hcrate _ _ hp "/Users/New")
      rcases a2 with _ | a <;>
        rcases o4 with _ | (_ | v) | ⟨status, body⟩ <;> simp [create_user, hu]
    · intro msg
      obtain ⟨u, hu⟩ := Option.isSome_iff_exists.mp
        (hcrate _ _ hp ("/Users/" ++ id ++ "/Authenticate"))
      rcases o10 with _ | (_ | v) | ⟨status, body⟩ <;> simp [auth_user_std, hu]
    · intro msg
      obtain ⟨u, hu⟩ := Option.isSome_iff_exists.mp
        (hcrate _ _ hp "/Users/AuthenticateByName")
      rcases o11 with _ | (_ | v) | ⟨status, body⟩ <;>
        simp [auth_user_name, hu]

/-- Witness for C9: a failing join oracle gives the fatal result on a
concrete client, and a client constructed by `new` from a parse-accepted
base never does (shown for `get_users`). -/
theorem url_join_failure_is_fatal_witness :
    get_users joinNoneW "dev" md5W clientAuthedW false false .netError =
      .fatal "Failed to join URL" ∧
    get_users joinW "dev" md5W clientNoAuthW false false .netError ≠
      .fatal "Failed to join URL" := by
  have h1 := url_join_failure_is_fatal parseW joinNoneW "dev" md5W sha1W
    clientAuthedW false false "i" "u" "p" "np" default default default
    .netError .netError .netError .netError .netError .netError .netError
    .netError .netError .netError .netError
  have h2 := url_join_failure_is_fatal parseW joinW "dev" md5W sha1W
    clientNoAuthW false false "i" "u" "p" "np" default default default
    .netError .netError .netError .netError .netError .netError .netError
    .netError .netError .netError .netError
  exact ⟨h1.1.1 rfl,
    (h2.2.2 "http://example.com" clientNoAuthW rfl
      (fun s u hsu path => rfl) none).1 "Failed to join URL"⟩

/-- A concrete JSON problem-details error body. -/
def bodyC : String :=
  "\x7b\"type\":\"about:blank\",\"title\":\"Bad Request\"\x7d"

/-- The `serde_json` parse of `bodyC`. -/
def parsedC : Json :=
  .obj [("type", .str "about:blank"), ("title", .str "Bad Request")]

/-- Counterexample for C3: on a 400 response whose JSON body carries
problem fields, `get_users` returns an error holding only the status and
the raw body text, which differs from the structured error the §4.2
decoder `handle_http_error` produces for the same response — the
endpoint methods never invoke the decoder. -/
theorem endpoint_error_not_decoded_counterexample :
    (∃ reqs, get_users joinW "dev" md5W clientAuthedW false false
        (.failure 400 (some bodyC)) =
      .ret (.error (.HttpRequestError 400 none none none none none none []
        bodyC), reqs)) ∧
    handle_http_error 400 bodyC (some parsedC) =
      .HttpRequestError 400 (some "about:blank") (some "Bad Request")
        none none none none [] bodyC ∧
    JellyfinError.HttpRequestError 400 none none none none none none []
        bodyC ≠
      .HttpRequestError 400 (some "about:blank") (some "Bad Request")
        none none none none [] bodyC :=
  ⟨⟨_, rfl⟩, rfl, by decide⟩

/-- Claim C3 as amended: on every non-success response, every endpoint
method returns `HttpRequestError` carrying only the status code and the
raw body text — all problem fields absent and the field-error map
empty — rather than the decoded structured error of §4.2. -/
theorem endpoint_error_status_and_raw_body
    (join : String → String → Option String) (devicename : String)
    (md5hex sha1hex : String → String) (c : JellyfinClient) (a : UserAuth)
    (hauth : c.auth = some a)
    (hjoin : ∀ path, (join c.url path).isSome)
    (is_hidden is_disabled : Bool)
    (id username password new_password : String) (new_info : User)
    (new_conf : UserConfiguration) (new_policy : UserPolicy)
    (status : Nat) (body : Option String) :
    (∃ reqs, get_users join devicename md5hex c is_hidden is_disabled
        (.failure status body) =
      .ret (.error (.HttpRequestError status none none none none none none
        [] (body.getD "")), reqs)) ∧
    (∃ reqs, get_user_by_id join devicename md5hex c id
        (.failure status body) =
      .ret (.error (.HttpRequestError status none none none none none none
        [] (body.getD "")), reqs)) ∧
    (∃ reqs, delete_user join devicename md5hex c id
        (.failure status body) =
      .ret (.error (.HttpRequestError status none none none none none none
        [] (body.getD "")), reqs)) ∧
    (∃ reqs, update_user join devicename md5hex c id new_info
        (.failure status body) =
      .ret (.error (.HttpRequestError status none none none none none none
        [] (body.getD "")), reqs)) ∧
    (∃ reqs, update_user_conf join devicename md5hex c id new_conf
        (.failure status body) =
      .ret (.error (.HttpRequestError status none none none none none none
        [] (body.getD "")), reqs)) ∧
    (∃ reqs, update_user_password join devicename md5hex c id new_password
        (.failure status body) =
      .ret (.error (.HttpRequestError status none none none none none none
        [] (body.getD "")), reqs)) ∧
    (∃ reqs, update_user_policy join devicename md5hex c id new_policy
        (.failure status body) =
      .ret (.error (.HttpRequestError status none none none none none none
        [] (body.getD "")), reqs)) ∧
    (∃ reqs, get_user_by_auth join devicename md5hex c
        (.failure status body) =
      .ret (.error (.HttpRequestError status none none none none none none
        [] (body.getD "")), reqs)) ∧
    (∃ reqs, create_user join devicename md5hex c username password
        (.failure status body) =
      .ret (.error (.HttpRequestError status none none none none none none
        [] (body.getD "")), reqs)) ∧
    (∃ reqs, auth_user_std join devicename md5hex sha1hex c id password
        (.failure status body) =
      .ret (.error (.HttpRequestError status none none none none none none
        [] (body.getD "")), c, reqs)) ∧
    (∃ reqs, auth_user_name join devicename md5hex c username password
        (.failure status body) =
      .ret (.error (.HttpRequestError status none none none none none none
        [] (body.getD "")), c, reqs)) := by
  refine ⟨?_, ?_, ?_, ?_, ?_, ?_, ?_, ?_, ?_, ?_, ?_⟩ <;>
    [obtain ⟨u, hu⟩ := Option.isSome_iff_exists.mp (hjoin "/Users");
     obtain ⟨u, hu⟩ := Option.isSome_iff_exists.mp (hjoin ("/Users/" ++ id));
     obtain ⟨u, hu⟩ := Option.isSome_iff_exists.mp (hjoin ("/Users/" ++ id));
     obtain ⟨u, hu⟩ := Option.isSome_iff_exists.mp (hjoin ("/Users/" ++ id));
     obtain ⟨u, hu⟩ := Option.isSome_iff_exists.mp
       (hjoin ("/Users/" ++ id ++ "/Configuration"));
     obtain ⟨u, hu⟩ := Option.isSome_iff_exists.mp
       (hjoin ("/Users/" ++ id ++ "/Password"));
     obtain ⟨u, hu⟩ := Option.isSome_iff_exists.mp
       (hjoin ("/Users/" ++ id ++ "/Policy"));
     obtain ⟨u, hu⟩ := Option.isSome_iff_exists.mp (hjoin "/Users/Me");
     obtain ⟨u, hu⟩ := Option.isSome_iff_exists.mp (hjoin "/Users/New");
     obtain ⟨u, hu⟩ := Option.isSome_iff_exists.mp
       (hjoin ("/Users/" ++ id ++ "/Authenticate"));
     obtain ⟨u, hu⟩ := Option.isSome_iff_exists.mp
       (hjoin "/Users/AuthenticateByName")] <;>
    exact ⟨_, by
      simp [get_users, get_user_by_id, delete_user, update_user,
        update_user_conf, update_user_password, update_user_policy,
        get_user_by_auth, create_user, auth_user_std, auth_user_name,
        hu, hauth]; rfl⟩

/-- Witness for the amended C3 at a concrete authenticated client and a
concrete 400 response. -/
theorem endpoint_error_status_and_raw_body_witness :
    ∃ reqs, get_users joinW "dev" md5W clientAuthedW false false
        (.failure 400 (some bodyC)) =
      .ret (.error (.HttpRequestError 400 none none none none none none []
        bodyC), reqs) := by
  have h := endpoint_error_status_and_raw_body joinW "dev" md5W sha1W
    clientAuthedW uaW rfl (fun _ => rfl) false false "i" "u" "p" "np"
    default default default 400 (some bodyC)
  exact h.1

end Jellyfin
